import Mathlib

/-!
Shallow embedding of the Prometheus-based metrics client
(`PrometheusMetricsClient` in the `metrics` package): pod-set filtering,
CPU-request aggregation, query-string construction and sample
aggregation.  The two external collaborators are passed in explicitly:
the pod listing (the outcome of `client.Core().Pods(namespace).List`)
as an `Except` value, and the Prometheus query API as a function from
query strings to query outcomes.  Go `float64` sample values are
modelled as exact rationals; Go `int64` values as `Int`, with Go
division semantics (truncation toward zero, panic on a zero integer
divisor) made explicit.
-/

/-- Lifecycle phase of a pod (`v1.PodPhase`). -/
inductive PodPhase where
  | pending
  | running
  | succeeded
  | failed
  | unknown
deriving DecidableEq

/-- A container, reduced to the one field the client reads: its CPU
request in milli-units (`container.Resources.Requests[v1.ResourceCPU]`
read through `MilliValue`), `none` when the map has no CPU entry. -/
structure Container where
  cpuRequestMilli : Option Int
deriving DecidableEq

/-- A pod: name, lifecycle phase, ordered containers. -/
structure Pod where
  name : String
  phase : PodPhase
  containers : List Container
deriving DecidableEq

/-- One Prometheus sample: a scalar value (`model.SampleValue`, a Go
`float64`, modelled as an exact rational) and its observation
timestamp (`model.Time`, milliseconds). -/
structure Sample where
  value : ℚ
  timestampMs : Int
deriving DecidableEq

/-- The polymorphic result of an instant query (`model.Value`): the
client only handles the vector shape; the other shapes are abstracted
to bare tags since the client never inspects their payloads. -/
inductive QueryResult where
  | vector (samples : List Sample)
  | scalar
  | matrix
  | str
deriving DecidableEq

/-- A Go `time.Time` as the client uses it: either the zero value
`time.Time{}` (returned on every failure path) or a concrete instant
obtained from a sample timestamp via `model.Time.Time()`. -/
inductive GoTime where
  | zeroTime
  | ofMillis (ms : Int)
deriving DecidableEq

/-- The error values the client can surface, one constructor per
`fmt.Errorf` site.  `queryFailed` and `noMatchingSamples` carry the
metric name and the pod pattern interpolated into their messages;
`cpuWrapped` is the extra wrapping layer added by `GetCPUUtilization`
("failed to get CPU consumption and request: ..."). -/
inductive MetricsError where
  | podListFailed
  | noEligiblePods
  | missingResourceRequest
  | queryFailed (metricName podPattern : String)
  | noMatchingSamples (metricName podPattern : String)
  | cpuWrapped (cause : MetricsError)
deriving DecidableEq

/-- Outcome of a Go function returning `(value, time.Time, error)` by
value: either a runtime panic, or a return triple. -/
inductive GoVal (α : Type) where
  | panics
  | ret (value : α) (obsTime : GoTime) (errOut : Option MetricsError)
deriving DecidableEq

/-- Outcome of a Go function returning `(*value, time.Time, error)`:
either a runtime panic, or a return triple whose first component is a
pointer (`none` = nil). -/
inductive GoCall (α : Type) where
  | panics
  | ret (value : Option α) (obsTime : GoTime) (errOut : Option MetricsError)
deriving DecidableEq

/-- The Prometheus query API: maps a query string to either a
transport/server error or a polymorphic result. -/
def QueryAPI : Type := String → Except Unit QueryResult

/-- The outcome of listing pods in the namespace with the selector:
either a listing error or the pod list. -/
def ListOutcome : Type := Except Unit (List Pod)

/-- Constant `DefaultCPUUtilizationMetric`. -/
def DefaultCPUUtilizationMetric : String := "container_cpu_usage_seconds_total"

/-- Go `int64(x)` conversion of a `float64`: truncation toward zero. -/
def goTruncToInt (q : ℚ) : Int :=
  if q < 0 then q.ceil else q.floor

/-- Insertion into the `map[string]struct{}` set `podNames`
(`podNames[pod.Name] = struct{}{}`), represented as a duplicate-free
list in insertion order. -/
def insertName (names : List String) (n : String) : List String :=
  if n ∈ names then names else names ++ [n]

/-- The mutable state of the aggregation loop in
`GetCpuConsumptionAndRequestInMillis`: the eligible name set, the
running request sum, and the missing-request flag. -/
structure CpuAgg where
  podNames : List String
  requestSum : Int
  missing : Bool
deriving DecidableEq

/-- One iteration of the inner container loop: add the container's CPU
request to the sum when present, otherwise set the missing flag. -/
def addContainer (a : CpuAgg) (c : Container) : CpuAgg :=
  match c.cpuRequestMilli with
  | some r => { a with requestSum := a.requestSum + r }
  | none => { a with missing := true }

/-- One iteration of the outer pod loop: non-Running pods are skipped
(`continue`); a Running pod's name enters the set and its containers
are folded through `addContainer`. -/
def cpuAggStep (a : CpuAgg) (p : Pod) : CpuAgg :=
  if p.phase = PodPhase.running then
    p.containers.foldl addContainer { a with podNames := insertName a.podNames p.name }
  else a

/-- The whole aggregation loop of `GetCpuConsumptionAndRequestInMillis`
over the listed pods, started from the empty set, zero sum and clear
flag. -/
def cpuAggregate (pods : List Pod) : CpuAgg :=
  pods.foldl cpuAggStep { podNames := [], requestSum := 0, missing := false }

/-- The pod-name pattern builder shared verbatim by
`getCpuUtilizationForPods` and `getCustomMetricForPods`: start from
the opening parenthesis, append each name followed by the alternation
bar, then append the closing parenthesis and the wildcard.  The
source's `strings.TrimSuffix(podListReg, "|")` between the loop and
the final append discards its result, so it has no effect and the
trailing bar survives. -/
def buildPodPattern (podNames : List String) : String :=
  let podListReg := podNames.foldl (fun acc n => acc ++ n ++ "|") "("
  podListReg ++ ").*"

/-- The CPU query string
`sum(rate({__name__='<metric>',namespace='<ns>',pod_name=~'<pattern>'}[30m]))`. -/
def cpuQueryString (namespc podListReg : String) : String :=
  "sum(rate(\x7b__name__=\x27" ++ DefaultCPUUtilizationMetric ++ "\x27,namespace=\x27"
    ++ namespc ++ "\x27,pod_name=~\x27" ++ podListReg ++ "\x27\x7d[30m]))"

/-- The custom-metric query string
`sum({__name__='<metric>',kubernetes_namespace='<ns>',kubernetes_pod_name=~'<pattern>'})`. -/
def customQueryString (customMetricName namespc podListReg : String) : String :=
  "sum(\x7b__name__=\x27" ++ customMetricName ++ "\x27,kubernetes_namespace=\x27"
    ++ namespc ++ "\x27,kubernetes_pod_name=~\x27" ++ podListReg ++ "\x27\x7d)"

/-- `getCpuUtilizationForPods`: build the pattern and the query, run
it, and interpret the outcome.  The unchecked Go type assertion
`result.(model.Vector)` panics on every non-vector shape.  On a
non-empty vector the first sample's value is scaled by 1000 to
milli-units and divided by the pod count, then truncated to `int64`.  -/
def getCpuUtilizationForPods (queryAPI : QueryAPI) (namespc : String)
    (podNames : List String) : GoVal Int :=
  let podListReg := buildPodPattern podNames
  let query := cpuQueryString namespc podListReg
  match queryAPI query with
  | Except.error _ =>
      GoVal.ret 0 GoTime.zeroTime (some (MetricsError.queryFailed DefaultCPUUtilizationMetric podListReg))
  | Except.ok (QueryResult.vector metrics) =>
      match metrics with
      | [] =>
          GoVal.ret 0 GoTime.zeroTime (some (MetricsError.noMatchingSamples DefaultCPUUtilizationMetric podListReg))
      | m0 :: _ =>
          let sum : ℚ := m0.value * 1000
          GoVal.ret (goTruncToInt (sum / (podNames.length : ℚ))) (GoTime.ofMillis m0.timestampMs) none
  | Except.ok _ => GoVal.panics

/-- `GetCpuConsumptionAndRequestInMillis`: list the pods, aggregate
Running pods with `cpuAggregate`, run the two guards in source order
(no running pods; missing request or zero sum), compute the average
request by integer division, and delegate to
`getCpuUtilizationForPods`. -/
def GetCpuConsumptionAndRequestInMillis (listOutcome : ListOutcome) (queryAPI : QueryAPI)
    (namespc : String) : GoVal (Int × Int) :=
  match listOutcome with
  | Except.error _ =>
      GoVal.ret (0, 0) GoTime.zeroTime (some MetricsError.podListFailed)
  | Except.ok podList =>
      let agg := cpuAggregate podList
      if agg.podNames.length = 0 ∧ 0 < podList.length then
        GoVal.ret (0, 0) GoTime.zeroTime (some MetricsError.noEligiblePods)
      else if agg.missing = true ∨ agg.requestSum = 0 then
        GoVal.ret (0, 0) GoTime.zeroTime (some MetricsError.missingResourceRequest)
      else
        let requestAvg := Int.tdiv agg.requestSum agg.podNames.length
        match getCpuUtilizationForPods queryAPI namespc agg.podNames with
        | GoVal.panics => GoVal.panics
        | GoVal.ret _ _ (some e) => GoVal.ret (0, 0) GoTime.zeroTime (some e)
        | GoVal.ret consumption timestamp none =>
            GoVal.ret (consumption, requestAvg) timestamp none

/-- `GetCPUUtilization`: wrap any error from
`GetCpuConsumptionAndRequestInMillis`, otherwise compute
`int((avgConsumption * 100) / avgRequest)` — a Go `int64` division,
which truncates toward zero and panics when the divisor is zero. -/
def GetCPUUtilization (listOutcome : ListOutcome) (queryAPI : QueryAPI)
    (namespc : String) : GoCall Int :=
  match GetCpuConsumptionAndRequestInMillis listOutcome queryAPI namespc with
  | GoVal.panics => GoCall.panics
  | GoVal.ret _ _ (some e) => GoCall.ret none GoTime.zeroTime (some (MetricsError.cpuWrapped e))
  | GoVal.ret (avgConsumption, avgRequest) timestamp none =>
      if avgRequest = 0 then GoCall.panics
      else GoCall.ret (some (Int.tdiv (avgConsumption * 100) avgRequest)) timestamp none

/-- One iteration of the pod loop of `GetCustomMetric`: Pending pods
are skipped, every other pod's name is appended to the slice. -/
def customStep (acc : List String) (p : Pod) : List String :=
  if p.phase = PodPhase.pending then acc else acc ++ [p.name]

/-- The eligible name slice of `GetCustomMetric` (every listed
not-Pending pod, in list order, duplicates kept). -/
def customPodNames (pods : List Pod) : List String :=
  pods.foldl customStep []

/-- `getCustomMetricForPods`: build the pattern and the query, run it,
and interpret the outcome.  The unchecked Go type assertion panics on
every non-vector shape; on a non-empty vector the first sample's value
is divided by the pod count in floating point. -/
def getCustomMetricForPods (queryAPI : QueryAPI) (customMetricName namespc : String)
    (podNames : List String) : GoVal ℚ :=
  let podListReg := buildPodPattern podNames
  let query := customQueryString customMetricName namespc podListReg
  match queryAPI query with
  | Except.error _ =>
      GoVal.ret 0 GoTime.zeroTime (some (MetricsError.queryFailed customMetricName podListReg))
  | Except.ok (QueryResult.vector metrics) =>
      match metrics with
      | [] =>
          GoVal.ret 0 GoTime.zeroTime (some (MetricsError.noMatchingSamples customMetricName podListReg))
      | m0 :: _ =>
          GoVal.ret (m0.value / (podNames.length : ℚ)) (GoTime.ofMillis m0.timestampMs) none
  | Except.ok _ => GoVal.panics

/-- `GetCustomMetric`: list the pods, keep the not-Pending names, run
the no-eligible-pods guard, and delegate to
`getCustomMetricForPods`, passing its error through unwrapped. -/
def GetCustomMetric (customMetricName : String) (listOutcome : ListOutcome)
    (queryAPI : QueryAPI) (namespc : String) : GoCall ℚ :=
  match listOutcome with
  | Except.error _ =>
      GoCall.ret none GoTime.zeroTime (some MetricsError.podListFailed)
  | Except.ok podList =>
      let podNames := customPodNames podList
      if podNames.length = 0 ∧ 0 < podList.length then
        GoCall.ret none GoTime.zeroTime (some MetricsError.noEligiblePods)
      else
        match getCustomMetricForPods queryAPI customMetricName namespc podNames with
        | GoVal.panics => GoCall.panics
        | GoVal.ret _ _ (some e) => GoCall.ret none GoTime.zeroTime (some e)
        | GoVal.ret value timestamp none => GoCall.ret (some value) timestamp none

/-! ## Specification-level views of the two phase filters -/

/-- The pods counted by the CPU path: exactly the Running ones. -/
def runningPods (pods : List Pod) : List Pod :=
  pods.filter fun p => decide (p.phase = PodPhase.running)

/-- The pods counted by the custom-metric path: exactly the
not-Pending ones. -/
def notPendingPods (pods : List Pod) : List Pod :=
  pods.filter fun p => decide (p.phase ≠ PodPhase.pending)

/-- The summed explicit CPU requests of one pod's containers. -/
def podRequestMilliSum (p : Pod) : Int :=
  (p.containers.filterMap Container.cpuRequestMilli).sum

/-- Whether some container of the pod lacks an explicit CPU request. -/
def podMissingRequest (p : Pod) : Bool :=
  p.containers.any fun c => c.cpuRequestMilli.isNone

/-! ## Lemmas about the aggregation loop -/

lemma foldl_addContainer_podNames (cs : List Container) (a : CpuAgg) :
    (cs.foldl addContainer a).podNames = a.podNames := by
  induction cs generalizing a with
  | nil => rfl
  | cons c cs ih =>
    simp only [List.foldl_cons]
    rw [ih]
    cases h : c.cpuRequestMilli <;> simp [addContainer, h]

lemma foldl_addContainer_missing (cs : List Container) (a : CpuAgg) :
    (cs.foldl addContainer a).missing = (a.missing || cs.any fun c => c.cpuRequestMilli.isNone) := by
  induction cs generalizing a with
  | nil => simp
  | cons c cs ih =>
    simp only [List.foldl_cons, List.any_cons]
    rw [ih]
    cases h : c.cpuRequestMilli <;>
      simp [addContainer, h, Bool.or_assoc, Bool.or_comm, Bool.or_left_comm]

lemma foldl_addContainer_requestSum (cs : List Container) (a : CpuAgg) :
    (cs.foldl addContainer a).requestSum
      = a.requestSum + (cs.filterMap Container.cpuRequestMilli).sum := by
  induction cs generalizing a with
  | nil => simp
  | cons c cs ih =>
    simp only [List.foldl_cons]
    rw [ih]
    cases h : c.cpuRequestMilli with
    | none => simp [addContainer, h, List.filterMap_cons]
    | some r =>
      simp [addContainer, h, List.filterMap_cons]
      omega

lemma insertName_ne_nil (names : List String) (n : String) : insertName names n ≠ [] := by
  unfold insertName
  split
  · intro hnil
    subst hnil
    simp_all
  · simp

lemma cpuAggStep_of_running (a : CpuAgg) (p : Pod) (hp : p.phase = PodPhase.running) :
    cpuAggStep a p
      = p.containers.foldl addContainer { a with podNames := insertName a.podNames p.name } := by
  unfold cpuAggStep
  rw [if_pos hp]

lemma cpuAggStep_of_not_running (a : CpuAgg) (p : Pod) (hp : ¬ p.phase = PodPhase.running) :
    cpuAggStep a p = a := by
  unfold cpuAggStep
  rw [if_neg hp]

lemma runningPods_cons_running (p : Pod) (pods : List Pod) (hp : p.phase = PodPhase.running) :
    runningPods (p :: pods) = p :: runningPods pods := by
  simp [runningPods, hp]

lemma runningPods_cons_not_running (p : Pod) (pods : List Pod)
    (hp : ¬ p.phase = PodPhase.running) :
    runningPods (p :: pods) = runningPods pods := by
  simp [runningPods, hp]

lemma foldl_cpuAggStep_requestSum (pods : List Pod) (a : CpuAgg) :
    (pods.foldl cpuAggStep a).requestSum
      = a.requestSum + ((runningPods pods).map podRequestMilliSum).sum := by
  induction pods generalizing a with
  | nil => simp [runningPods]
  | cons p pods ih =>
    simp only [List.foldl_cons]
    rw [ih]
    by_cases hp : p.phase = PodPhase.running
    · rw [cpuAggStep_of_running a p hp, foldl_addContainer_requestSum,
        runningPods_cons_running p pods hp]
      simp only [List.map_cons, List.sum_cons, podRequestMilliSum]
      omega
    · rw [cpuAggStep_of_not_running a p hp, runningPods_cons_not_running p pods hp]

lemma foldl_cpuAggStep_missing (pods : List Pod) (a : CpuAgg) :
    (pods.foldl cpuAggStep a).missing
      = (a.missing || (runningPods pods).any podMissingRequest) := by
  induction pods generalizing a with
  | nil => simp [runningPods]
  | cons p pods ih =>
    simp only [List.foldl_cons]
    rw [ih]
    by_cases hp : p.phase = PodPhase.running
    · rw [cpuAggStep_of_running a p hp, foldl_addContainer_missing,
        runningPods_cons_running p pods hp]
      simp [podMissingRequest, Bool.or_assoc]
    · rw [cpuAggStep_of_not_running a p hp, runningPods_cons_not_running p pods hp]

lemma foldl_cpuAggStep_podNames_eq_nil (pods : List Pod) (a : CpuAgg) :
    (pods.foldl cpuAggStep a).podNames = [] ↔ (a.podNames = [] ∧ runningPods pods = []) := by
  induction pods generalizing a with
  | nil => simp [runningPods]
  | cons p pods ih =>
    simp only [List.foldl_cons]
    rw [ih]
    by_cases hp : p.phase = PodPhase.running
    · rw [cpuAggStep_of_running a p hp, foldl_addContainer_podNames,
        runningPods_cons_running p pods hp]
      simp [insertName_ne_nil]
    · rw [cpuAggStep_of_not_running a p hp, runningPods_cons_not_running p pods hp]

lemma foldl_cpuAggStep_podNames_append (pods : List Pod) (a : CpuAgg)
    (hnd : (pods.map Pod.name).Nodup)
    (hdisj : ∀ p ∈ pods, p.phase = PodPhase.running → p.name ∉ a.podNames) :
    (pods.foldl cpuAggStep a).podNames = a.podNames ++ (runningPods pods).map Pod.name := by
  induction pods generalizing a with
  | nil => simp [runningPods]
  | cons p pods ih =>
    simp only [List.foldl_cons]
    simp only [List.map_cons, List.nodup_cons] at hnd
    by_cases hp : p.phase = PodPhase.running
    · have hnotmem : p.name ∉ a.podNames := hdisj p (List.mem_cons_self p pods) hp
      have hstep : (cpuAggStep a p).podNames = a.podNames ++ [p.name] := by
        rw [cpuAggStep_of_running a p hp, foldl_addContainer_podNames]
        simp [insertName, hnotmem]
      rw [ih (cpuAggStep a p) hnd.2, hstep, runningPods_cons_running p pods hp]
      · simp
      · intro p2 hp2 hrun2
        rw [hstep]
        simp only [List.mem_append, List.mem_singleton]
        push_neg
        refine ⟨hdisj p2 (List.mem_cons_of_mem p hp2) hrun2, ?_⟩
        intro hname
        exact hnd.1 (hname ▸ List.mem_map_of_mem Pod.name hp2)
    · rw [cpuAggStep_of_not_running a p hp, runningPods_cons_not_running p pods hp]
      exact ih a hnd.2 fun p2 hp2 hrun2 => hdisj p2 (List.mem_cons_of_mem p hp2) hrun2

/-! ## Bridge lemmas from `cpuAggregate` to the specification views -/

lemma cpuAggregate_requestSum (pods : List Pod) :
    (cpuAggregate pods).requestSum = ((runningPods pods).map podRequestMilliSum).sum := by
  unfold cpuAggregate
  rw [foldl_cpuAggStep_requestSum]
  simp

lemma cpuAggregate_missing (pods : List Pod) :
    (cpuAggregate pods).missing = (runningPods pods).any podMissingRequest := by
  unfold cpuAggregate
  rw [foldl_cpuAggStep_missing]
  simp

lemma cpuAggregate_podNames_eq_nil (pods : List Pod) :
    (cpuAggregate pods).podNames = [] ↔ runningPods pods = [] := by
  unfold cpuAggregate
  rw [foldl_cpuAggStep_podNames_eq_nil]
  simp

lemma cpuAggregate_podNames_of_nodup (pods : List Pod) (hnd : (pods.map Pod.name).Nodup) :
    (cpuAggregate pods).podNames = (runningPods pods).map Pod.name := by
  unfold cpuAggregate
  rw [foldl_cpuAggStep_podNames_append pods _ hnd (by simp)]
  simp

lemma cpuAggregate_missing_iff (pods : List Pod) :
    (cpuAggregate pods).missing = true
      ↔ ∃ p ∈ runningPods pods, ∃ c ∈ p.containers, c.cpuRequestMilli = none := by
  rw [cpuAggregate_missing]
  simp [podMissingRequest, List.any_eq_true, Option.isNone_iff_eq_none]

lemma runningPods_eq_nil_iff (pods : List Pod) :
    runningPods pods = [] ↔ ∀ p ∈ pods, p.phase ≠ PodPhase.running := by
  simp [runningPods, List.filter_eq_nil_iff]

lemma notPendingPods_eq_nil_iff (pods : List Pod) :
    notPendingPods pods = [] ↔ ∀ p ∈ pods, p.phase = PodPhase.pending := by
  simp [notPendingPods, List.filter_eq_nil_iff]

lemma foldl_customStep (pods : List Pod) (acc : List String) :
    pods.foldl customStep acc = acc ++ (notPendingPods pods).map Pod.name := by
  induction pods generalizing acc with
  | nil => simp [notPendingPods]
  | cons p pods ih =>
    simp only [List.foldl_cons]
    rw [ih]
    by_cases hp : p.phase = PodPhase.pending
    · simp [customStep, hp, notPendingPods]
    · simp [customStep, hp, notPendingPods]

lemma customPodNames_eq (pods : List Pod) :
    customPodNames pods = (notPendingPods pods).map Pod.name := by
  unfold customPodNames
  rw [foldl_customStep]
  simp

/-! ## Evaluation lemmas for the query-running helpers -/

lemma getCpuUtilizationForPods_vector (queryAPI : QueryAPI) (namespc : String)
    (podNames : List String) (s : Sample) (rest : List Sample)
    (hq : queryAPI (cpuQueryString namespc (buildPodPattern podNames))
      = Except.ok (QueryResult.vector (s :: rest))) :
    getCpuUtilizationForPods queryAPI namespc podNames
      = GoVal.ret (goTruncToInt (s.value * 1000 / (podNames.length : ℚ)))
          (GoTime.ofMillis s.timestampMs) none := by
  simp only [getCpuUtilizationForPods, hq]

lemma getCpuUtilizationForPods_emptyVector (queryAPI : QueryAPI) (namespc : String)
    (podNames : List String)
    (hq : queryAPI (cpuQueryString namespc (buildPodPattern podNames))
      = Except.ok (QueryResult.vector [])) :
    getCpuUtilizationForPods queryAPI namespc podNames
      = GoVal.ret 0 GoTime.zeroTime
          (some (MetricsError.noMatchingSamples DefaultCPUUtilizationMetric (buildPodPattern podNames))) := by
  simp only [getCpuUtilizationForPods, hq]

lemma getCpuUtilizationForPods_err_shape (queryAPI : QueryAPI) (namespc : String)
    (podNames : List String) (v : Int) (t : GoTime) (e : MetricsError)
    (h : getCpuUtilizationForPods queryAPI namespc podNames = GoVal.ret v t (some e)) :
    e = MetricsError.queryFailed DefaultCPUUtilizationMetric (buildPodPattern podNames)
      ∨ e = MetricsError.noMatchingSamples DefaultCPUUtilizationMetric (buildPodPattern podNames) := by
  rcases hr : queryAPI (cpuQueryString namespc (buildPodPattern podNames)) with u | r
  · simp only [getCpuUtilizationForPods, hr] at h
    simp only [GoVal.ret.injEq, Option.some.injEq] at h
    exact Or.inl h.2.2.symm
  · simp only [getCpuUtilizationForPods, hr] at h
    cases r with
    | vector metrics =>
      cases metrics with
      | nil =>
        simp only [GoVal.ret.injEq, Option.some.injEq] at h
        exact Or.inr h.2.2.symm
      | cons m0 ms => simp at h
    | scalar => simp at h
    | matrix => simp at h
    | str => simp at h

lemma getCustomMetricForPods_vector (queryAPI : QueryAPI) (customMetricName namespc : String)
    (podNames : List String) (s : Sample) (rest : List Sample)
    (hq : queryAPI (customQueryString customMetricName namespc (buildPodPattern podNames))
      = Except.ok (QueryResult.vector (s :: rest))) :
    getCustomMetricForPods queryAPI customMetricName namespc podNames
      = GoVal.ret (s.value / (podNames.length : ℚ)) (GoTime.ofMillis s.timestampMs) none := by
  simp only [getCustomMetricForPods, hq]

lemma getCustomMetricForPods_emptyVector (queryAPI : QueryAPI) (customMetricName namespc : String)
    (podNames : List String)
    (hq : queryAPI (customQueryString customMetricName namespc (buildPodPattern podNames))
      = Except.ok (QueryResult.vector [])) :
    getCustomMetricForPods queryAPI customMetricName namespc podNames
      = GoVal.ret 0 GoTime.zeroTime
          (some (MetricsError.noMatchingSamples customMetricName (buildPodPattern podNames))) := by
  simp only [getCustomMetricForPods, hq]

/-! ## Decomposition lemmas for the two entry points -/

lemma cpuCR_noEligible (pods : List Pod) (queryAPI : QueryAPI) (namespc : String)
    (h : (cpuAggregate pods).podNames.length = 0 ∧ 0 < pods.length) :
    GetCpuConsumptionAndRequestInMillis (Except.ok pods) queryAPI namespc
      = GoVal.ret (0, 0) GoTime.zeroTime (some MetricsError.noEligiblePods) := by
  simp only [GetCpuConsumptionAndRequestInMillis]
  rw [if_pos h]

lemma cpuCR_missing (pods : List Pod) (queryAPI : QueryAPI) (namespc : String)
    (h1 : ¬ ((cpuAggregate pods).podNames.length = 0 ∧ 0 < pods.length))
    (h2 : (cpuAggregate pods).missing = true ∨ (cpuAggregate pods).requestSum = 0) :
    GetCpuConsumptionAndRequestInMillis (Except.ok pods) queryAPI namespc
      = GoVal.ret (0, 0) GoTime.zeroTime (some MetricsError.missingResourceRequest) := by
  simp only [GetCpuConsumptionAndRequestInMillis]
  rw [if_neg h1, if_pos h2]

lemma cpuCR_vector (pods : List Pod) (queryAPI : QueryAPI) (namespc : String)
    (s : Sample) (rest : List Sample)
    (h1 : ¬ ((cpuAggregate pods).podNames.length = 0 ∧ 0 < pods.length))
    (h2 : ¬ ((cpuAggregate pods).missing = true ∨ (cpuAggregate pods).requestSum = 0))
    (hq : queryAPI (cpuQueryString namespc (buildPodPattern (cpuAggregate pods).podNames))
      = Except.ok (QueryResult.vector (s :: rest))) :
    GetCpuConsumptionAndRequestInMillis (Except.ok pods) queryAPI namespc
      = GoVal.ret
          (goTruncToInt (s.value * 1000 / ((cpuAggregate pods).podNames.length : ℚ)),
            Int.tdiv (cpuAggregate pods).requestSum (cpuAggregate pods).podNames.length)
          (GoTime.ofMillis s.timestampMs) none := by
  simp only [GetCpuConsumptionAndRequestInMillis]
  rw [if_neg h1, if_neg h2,
    getCpuUtilizationForPods_vector queryAPI namespc (cpuAggregate pods).podNames s rest hq]

lemma cpuCR_inner_err (pods : List Pod) (queryAPI : QueryAPI) (namespc : String)
    (v : Int) (t : GoTime) (e : MetricsError)
    (h1 : ¬ ((cpuAggregate pods).podNames.length = 0 ∧ 0 < pods.length))
    (h2 : ¬ ((cpuAggregate pods).missing = true ∨ (cpuAggregate pods).requestSum = 0))
    (hinner : getCpuUtilizationForPods queryAPI namespc (cpuAggregate pods).podNames
      = GoVal.ret v t (some e)) :
    GetCpuConsumptionAndRequestInMillis (Except.ok pods) queryAPI namespc
      = GoVal.ret (0, 0) GoTime.zeroTime (some e) := by
  simp only [GetCpuConsumptionAndRequestInMillis]
  rw [if_neg h1, if_neg h2, hinner]

lemma GetCPUUtilization_of_inner_err (listOutcome : ListOutcome) (queryAPI : QueryAPI)
    (namespc : String) (v : Int × Int) (t : GoTime) (e : MetricsError)
    (h : GetCpuConsumptionAndRequestInMillis listOutcome queryAPI namespc
      = GoVal.ret v t (some e)) :
    GetCPUUtilization listOutcome queryAPI namespc
      = GoCall.ret none GoTime.zeroTime (some (MetricsError.cpuWrapped e)) := by
  simp only [GetCPUUtilization, h]

lemma GetCPUUtilization_of_inner_ok (listOutcome : ListOutcome) (queryAPI : QueryAPI)
    (namespc : String) (c r : Int) (t : GoTime)
    (h : GetCpuConsumptionAndRequestInMillis listOutcome queryAPI namespc
      = GoVal.ret (c, r) t none)
    (hr : ¬ r = 0) :
    GetCPUUtilization listOutcome queryAPI namespc
      = GoCall.ret (some (Int.tdiv (c * 100) r)) t none := by
  simp only [GetCPUUtilization, h]
  rw [if_neg hr]

lemma custom_noEligible (pods : List Pod) (customMetricName : String)
    (queryAPI : QueryAPI) (namespc : String)
    (h : (customPodNames pods).length = 0 ∧ 0 < pods.length) :
    GetCustomMetric customMetricName (Except.ok pods) queryAPI namespc
      = GoCall.ret none GoTime.zeroTime (some MetricsError.noEligiblePods) := by
  simp only [GetCustomMetric]
  rw [if_pos h]

lemma custom_vector (pods : List Pod) (customMetricName : String)
    (queryAPI : QueryAPI) (namespc : String) (s : Sample) (rest : List Sample)
    (h1 : ¬ ((customPodNames pods).length = 0 ∧ 0 < pods.length))
    (hq : queryAPI (customQueryString customMetricName namespc (buildPodPattern (customPodNames pods)))
      = Except.ok (QueryResult.vector (s :: rest))) :
    GetCustomMetric customMetricName (Except.ok pods) queryAPI namespc
      = GoCall.ret (some (s.value / ((customPodNames pods).length : ℚ)))
          (GoTime.ofMillis s.timestampMs) none := by
  simp only [GetCustomMetric]
  rw [if_neg h1,
    getCustomMetricForPods_vector queryAPI customMetricName namespc (customPodNames pods) s rest hq]

lemma custom_inner_err (pods : List Pod) (customMetricName : String)
    (queryAPI : QueryAPI) (namespc : String) (v : ℚ) (t : GoTime) (e : MetricsError)
    (h1 : ¬ ((customPodNames pods).length = 0 ∧ 0 < pods.length))
    (hinner : getCustomMetricForPods queryAPI customMetricName namespc (customPodNames pods)
      = GoVal.ret v t (some e)) :
    GetCustomMetric customMetricName (Except.ok pods) queryAPI namespc
      = GoCall.ret none GoTime.zeroTime (some e) := by
  simp only [GetCustomMetric]
  rw [if_neg h1, hinner]

lemma cpuCR_inner_panics (pods : List Pod) (queryAPI : QueryAPI) (namespc : String)
    (h1 : ¬ ((cpuAggregate pods).podNames.length = 0 ∧ 0 < pods.length))
    (h2 : ¬ ((cpuAggregate pods).missing = true ∨ (cpuAggregate pods).requestSum = 0))
    (hinner : getCpuUtilizationForPods queryAPI namespc (cpuAggregate pods).podNames
      = GoVal.panics) :
    GetCpuConsumptionAndRequestInMillis (Except.ok pods) queryAPI namespc = GoVal.panics := by
  simp only [GetCpuConsumptionAndRequestInMillis]
  rw [if_neg h1, if_neg h2, hinner]

lemma cpuCR_inner_ok (pods : List Pod) (queryAPI : QueryAPI) (namespc : String)
    (v : Int) (t : GoTime)
    (h1 : ¬ ((cpuAggregate pods).podNames.length = 0 ∧ 0 < pods.length))
    (h2 : ¬ ((cpuAggregate pods).missing = true ∨ (cpuAggregate pods).requestSum = 0))
    (hinner : getCpuUtilizationForPods queryAPI namespc (cpuAggregate pods).podNames
      = GoVal.ret v t none) :
    GetCpuConsumptionAndRequestInMillis (Except.ok pods) queryAPI namespc
      = GoVal.ret (v, Int.tdiv (cpuAggregate pods).requestSum (cpuAggregate pods).podNames.length)
          t none := by
  simp only [GetCpuConsumptionAndRequestInMillis]
  rw [if_neg h1, if_neg h2, hinner]

lemma GetCPUUtilization_of_panics (listOutcome : ListOutcome) (queryAPI : QueryAPI)
    (namespc : String)
    (h : GetCpuConsumptionAndRequestInMillis listOutcome queryAPI namespc = GoVal.panics) :
    GetCPUUtilization listOutcome queryAPI namespc = GoCall.panics := by
  simp only [GetCPUUtilization, h]

lemma GetCPUUtilization_of_inner_ok_zero (listOutcome : ListOutcome) (queryAPI : QueryAPI)
    (namespc : String) (c : Int) (t : GoTime)
    (h : GetCpuConsumptionAndRequestInMillis listOutcome queryAPI namespc
      = GoVal.ret (c, 0) t none) :
    GetCPUUtilization listOutcome queryAPI namespc = GoCall.panics := by
  simp [GetCPUUtilization, h]

lemma custom_inner_panics (pods : List Pod) (customMetricName : String)
    (queryAPI : QueryAPI) (namespc : String)
    (h1 : ¬ ((customPodNames pods).length = 0 ∧ 0 < pods.length))
    (hinner : getCustomMetricForPods queryAPI customMetricName namespc (customPodNames pods)
      = GoVal.panics) :
    GetCustomMetric customMetricName (Except.ok pods) queryAPI namespc = GoCall.panics := by
  simp only [GetCustomMetric]
  rw [if_neg h1, hinner]

lemma custom_inner_ok (pods : List Pod) (customMetricName : String)
    (queryAPI : QueryAPI) (namespc : String) (v : ℚ) (t : GoTime)
    (h1 : ¬ ((customPodNames pods).length = 0 ∧ 0 < pods.length))
    (hinner : getCustomMetricForPods queryAPI customMetricName namespc (customPodNames pods)
      = GoVal.ret v t none) :
    GetCustomMetric customMetricName (Except.ok pods) queryAPI namespc
      = GoCall.ret (some v) t none := by
  simp only [GetCustomMetric]
  rw [if_neg h1, hinner]

lemma GetCustomMetric_listErr (customMetricName : String) (u : Unit) (queryAPI : QueryAPI)
    (namespc : String) :
    GetCustomMetric customMetricName (Except.error u) queryAPI namespc
      = GoCall.ret none GoTime.zeroTime (some MetricsError.podListFailed) := rfl

lemma foldl_cpuAggStep_filter (pods : List Pod) (a : CpuAgg) :
    pods.foldl cpuAggStep a = (runningPods pods).foldl cpuAggStep a := by
  induction pods generalizing a with
  | nil => simp [runningPods]
  | cons p pods ih =>
    by_cases hp : p.phase = PodPhase.running
    · rw [runningPods_cons_running p pods hp]
      simp only [List.foldl_cons]
      exact ih (cpuAggStep a p)
    · rw [runningPods_cons_not_running p pods hp]
      simp only [List.foldl_cons]
      rw [cpuAggStep_of_not_running a p hp]
      exact ih a

/-! ## Concrete fixtures used by witnesses and counterexamples -/

/-- Namespace used in the concrete scenarios. -/
def nsOne : String := "ns1"

/-- A custom metric name used in the concrete scenarios. -/
def qpsMetric : String := "qps"

/-- A backend that answers every query with the same result. -/
def backendConst (qr : QueryResult) : QueryAPI := fun _ => Except.ok qr

/-- Running pod `a` with a 100m CPU request. -/
def podA100 : Pod := { name := "a", phase := PodPhase.running, containers := [{ cpuRequestMilli := some 100 }] }

/-- Running pod `b` with a 300m CPU request. -/
def podB300 : Pod := { name := "b", phase := PodPhase.running, containers := [{ cpuRequestMilli := some 300 }] }

/-- Failed pod `c` with a 100m CPU request. -/
def podFailedC : Pod := { name := "c", phase := PodPhase.failed, containers := [{ cpuRequestMilli := some 100 }] }

/-- Pending pod `p`. -/
def podPendingP : Pod := { name := "p", phase := PodPhase.pending, containers := [] }

/-- Succeeded pod `s` with no containers. -/
def podSucceededS : Pod := { name := "s", phase := PodPhase.succeeded, containers := [] }

/-! ## The claims -/

/-- C2: the pod-name pattern placed into the backend query keeps a
trailing alternation separator before the closing parenthesis —
`strings.TrimSuffix`'s result is discarded — so for the single-pod set
the built pattern is `(a|).*`, not the claimed `(a).*`, and for two
pods it is `(a|b|).*`. -/
theorem buildPodPattern_trailing_separator :
    buildPodPattern ["a"] = "(a|).*"
      ∧ buildPodPattern ["a"] ≠ "(a).*"
      ∧ buildPodPattern ["a", "b"] = "(a|b|).*" := by
  refine ⟨by decide, by decide, by decide⟩

/-- C3: on any non-vector backend result (scalar, matrix or string)
both entry points panic through the unchecked type assertion
`result.(model.Vector)` instead of failing with an explicit
`UnexpectedResultShape` error. -/
theorem nonVector_result_panics :
    GetCPUUtilization (Except.ok [podA100, podB300]) (backendConst QueryResult.scalar) nsOne
        = GoCall.panics
      ∧ GetCPUUtilization (Except.ok [podA100, podB300]) (backendConst QueryResult.matrix) nsOne
        = GoCall.panics
      ∧ GetCPUUtilization (Except.ok [podA100, podB300]) (backendConst QueryResult.str) nsOne
        = GoCall.panics
      ∧ GetCustomMetric qpsMetric (Except.ok [podA100, podB300]) (backendConst QueryResult.scalar) nsOne
        = GoCall.panics
      ∧ GetCustomMetric qpsMetric (Except.ok [podA100, podB300]) (backendConst QueryResult.matrix) nsOne
        = GoCall.panics
      ∧ GetCustomMetric qpsMetric (Except.ok [podA100, podB300]) (backendConst QueryResult.str) nsOne
        = GoCall.panics := by
  refine ⟨by decide, by decide, by decide, by decide, by decide, by decide⟩

/-- C9: the two entry points apply divergent phase filters.  The whole
CPU aggregation state (eligible names, request sum, missing flag) is
unchanged when the pod list is first restricted to Running pods, the
request sum and missing flag are exactly the Running pods' sums and
missing-request test, and the custom-metric name slice is exactly the
not-Pending pods' names — so pods excluded by the relevant filter
affect neither the sums nor the divisors. -/
theorem divergent_phase_filters (pods : List Pod) :
    cpuAggregate pods = cpuAggregate (runningPods pods)
      ∧ (cpuAggregate pods).requestSum = ((runningPods pods).map podRequestMilliSum).sum
      ∧ (cpuAggregate pods).missing = (runningPods pods).any podMissingRequest
      ∧ customPodNames pods = (notPendingPods pods).map Pod.name := by
  refine ⟨?_, cpuAggregate_requestSum pods, cpuAggregate_missing pods, customPodNames_eq pods⟩
  unfold cpuAggregate
  exact foldl_cpuAggStep_filter pods _

/-- C6: for every non-empty pod list whose phase filtering leaves zero
eligible pods, the entry point fails with the no-eligible-pods error
for every backend whatsoever (so no backend answer can influence the
outcome, i.e. the failure precedes the query): `GetCPUUtilization`
when no listed pod is Running, `GetCustomMetric` when every listed pod
is Pending. -/
theorem noEligiblePods_failure (pods : List Pod) (queryAPI : QueryAPI)
    (namespc customMetricName : String) :
    (pods ≠ [] → (∀ p ∈ pods, p.phase ≠ PodPhase.running) →
      GetCPUUtilization (Except.ok pods) queryAPI namespc
        = GoCall.ret none GoTime.zeroTime
            (some (MetricsError.cpuWrapped MetricsError.noEligiblePods)))
    ∧ (pods ≠ [] → (∀ p ∈ pods, p.phase = PodPhase.pending) →
      GetCustomMetric customMetricName (Except.ok pods) queryAPI namespc
        = GoCall.ret none GoTime.zeroTime (some MetricsError.noEligiblePods)) := by
  constructor
  · intro hne hnorun
    have hrun : runningPods pods = [] := (runningPods_eq_nil_iff pods).mpr hnorun
    have hnames : (cpuAggregate pods).podNames = [] :=
      (cpuAggregate_podNames_eq_nil pods).mpr hrun
    have hguard : (cpuAggregate pods).podNames.length = 0 ∧ 0 < pods.length := by
      constructor
      · rw [hnames]; rfl
      · exact List.length_pos.mpr hne
    exact GetCPUUtilization_of_inner_err _ _ _ _ _ _
      (cpuCR_noEligible pods queryAPI namespc hguard)
  · intro hne hpend
    have hnp : notPendingPods pods = [] := (notPendingPods_eq_nil_iff pods).mpr hpend
    have hnames : customPodNames pods = [] := by
      rw [customPodNames_eq, hnp]; rfl
    have hguard : (customPodNames pods).length = 0 ∧ 0 < pods.length := by
      constructor
      · rw [hnames]; rfl
      · exact List.length_pos.mpr hne
    exact custom_noEligible pods customMetricName queryAPI namespc hguard

/-- C6 witness: a list holding only a Failed pod makes
`GetCPUUtilization` fail with the wrapped no-eligible-pods error, and
a list holding only a Pending pod does the same for
`GetCustomMetric`, both with a backend that would happily answer
queries. -/
theorem noEligiblePods_failure_witness :
    GetCPUUtilization (Except.ok [podFailedC])
        (backendConst (QueryResult.vector [{ value := 1, timestampMs := 1 }])) nsOne
      = GoCall.ret none GoTime.zeroTime
          (some (MetricsError.cpuWrapped MetricsError.noEligiblePods))
    ∧ GetCustomMetric qpsMetric (Except.ok [podPendingP])
        (backendConst (QueryResult.vector [{ value := 1, timestampMs := 1 }])) nsOne
      = GoCall.ret none GoTime.zeroTime (some MetricsError.noEligiblePods) :=
  ⟨(noEligiblePods_failure [podFailedC]
      (backendConst (QueryResult.vector [{ value := 1, timestampMs := 1 }])) nsOne qpsMetric).1
      (by decide) (by decide),
   (noEligiblePods_failure [podPendingP]
      (backendConst (QueryResult.vector [{ value := 1, timestampMs := 1 }])) nsOne qpsMetric).2
      (by decide) (by decide)⟩

/-- C7: whenever the backend answers the constructed query with a
zero-length sample vector, both entry points fail with the
no-matching-samples error carrying the metric name and pattern, the
optional value is absent and the error is non-nil.  The CPU side is
stated under the hypotheses that let it reach the query (no missing
request and a non-zero request sum); the custom side under its single
eligibility guard. -/
theorem emptyVector_noMatchingSamples (pods : List Pod) (queryAPI : QueryAPI)
    (namespc customMetricName : String) :
    ((cpuAggregate pods).missing = false → (cpuAggregate pods).requestSum ≠ 0 →
      queryAPI (cpuQueryString namespc (buildPodPattern (cpuAggregate pods).podNames))
        = Except.ok (QueryResult.vector []) →
      GetCPUUtilization (Except.ok pods) queryAPI namespc
        = GoCall.ret none GoTime.zeroTime
            (some (MetricsError.cpuWrapped (MetricsError.noMatchingSamples
              DefaultCPUUtilizationMetric (buildPodPattern (cpuAggregate pods).podNames)))))
    ∧ (¬ ((customPodNames pods).length = 0 ∧ 0 < pods.length) →
      queryAPI (customQueryString customMetricName namespc (buildPodPattern (customPodNames pods)))
        = Except.ok (QueryResult.vector []) →
      GetCustomMetric customMetricName (Except.ok pods) queryAPI namespc
        = GoCall.ret none GoTime.zeroTime
            (some (MetricsError.noMatchingSamples customMetricName
              (buildPodPattern (customPodNames pods))))) := by
  constructor
  · intro hmiss hsum hq
    have hlen : (cpuAggregate pods).podNames.length ≠ 0 := by
      intro h0
      apply hsum
      have hnil : (cpuAggregate pods).podNames = [] := List.length_eq_zero.mp h0
      have hrun : runningPods pods = [] := (cpuAggregate_podNames_eq_nil pods).mp hnil
      rw [cpuAggregate_requestSum, hrun]
      rfl
    have h1 : ¬ ((cpuAggregate pods).podNames.length = 0 ∧ 0 < pods.length) := by
      intro h
      exact hlen h.1
    have h2 : ¬ ((cpuAggregate pods).missing = true ∨ (cpuAggregate pods).requestSum = 0) := by
      rintro (h | h)
      · rw [hmiss] at h
        cases h
      · exact hsum h
    exact GetCPUUtilization_of_inner_err _ _ _ _ _ _
      (cpuCR_inner_err pods queryAPI namespc 0 GoTime.zeroTime _ h1 h2
        (getCpuUtilizationForPods_emptyVector queryAPI namespc _ hq))
  · intro h1 hq
    exact custom_inner_err pods customMetricName queryAPI namespc 0 GoTime.zeroTime _ h1
      (getCustomMetricForPods_emptyVector queryAPI customMetricName namespc _ hq)

/-- C7 witness: with pods `a` (100m) and `b` (300m) Running and a
backend answering every query with an empty vector, both entry points
return the nil value, the zero time, and the no-matching-samples
error for the pattern `(a|b|).*`. -/
theorem emptyVector_noMatchingSamples_witness :
    GetCPUUtilization (Except.ok [podA100, podB300]) (backendConst (QueryResult.vector [])) nsOne
      = GoCall.ret none GoTime.zeroTime
          (some (MetricsError.cpuWrapped (MetricsError.noMatchingSamples
            DefaultCPUUtilizationMetric (buildPodPattern (cpuAggregate [podA100, podB300]).podNames))))
    ∧ GetCustomMetric qpsMetric (Except.ok [podA100, podB300])
        (backendConst (QueryResult.vector [])) nsOne
      = GoCall.ret none GoTime.zeroTime
          (some (MetricsError.noMatchingSamples qpsMetric
            (buildPodPattern (customPodNames [podA100, podB300])))) :=
  ⟨(emptyVector_noMatchingSamples [podA100, podB300] (backendConst (QueryResult.vector []))
      nsOne qpsMetric).1 (by decide) (by decide) rfl,
   (emptyVector_noMatchingSamples [podA100, podB300] (backendConst (QueryResult.vector []))
      nsOne qpsMetric).2 (by decide) rfl⟩

/-- C8: for every pod list with at least one not-Pending pod and every
backend answering the custom-metric query with a non-empty sample
vector, `GetCustomMetric` returns the first sample's value divided by
the count of not-Pending pods, paired with that sample's timestamp
(sample values and the division are modelled as exact rationals). -/
theorem customMetric_average (pods : List Pod) (queryAPI : QueryAPI)
    (customMetricName namespc : String) (s : Sample) (rest : List Sample)
    (helig : ∃ p ∈ pods, p.phase ≠ PodPhase.pending)
    (hq : queryAPI (customQueryString customMetricName namespc
        (buildPodPattern ((notPendingPods pods).map Pod.name)))
      = Except.ok (QueryResult.vector (s :: rest))) :
    GetCustomMetric customMetricName (Except.ok pods) queryAPI namespc
      = GoCall.ret (some (s.value / ((notPendingPods pods).length : ℚ)))
          (GoTime.ofMillis s.timestampMs) none := by
  have hnames : customPodNames pods = (notPendingPods pods).map Pod.name :=
    customPodNames_eq pods
  have hne : notPendingPods pods ≠ [] := by
    intro hnil
    rcases helig with ⟨p, hp, hphase⟩
    exact hphase ((notPendingPods_eq_nil_iff pods).mp hnil p hp)
  have h1 : ¬ ((customPodNames pods).length = 0 ∧ 0 < pods.length) := by
    rintro ⟨h0, _⟩
    rw [hnames, List.length_map] at h0
    exact hne (List.length_eq_zero.mp h0)
  have hq2 : queryAPI (customQueryString customMetricName namespc
      (buildPodPattern (customPodNames pods))) = Except.ok (QueryResult.vector (s :: rest)) := by
    rw [hnames]
    exact hq
  have := custom_vector pods customMetricName queryAPI namespc s rest h1 hq2
  rw [this, hnames, List.length_map]

/-- C8 witness: three eligible pods (`a`, `b` Running, `s` Succeeded)
and a backend-reported aggregate of 30.0 at timestamp 9 yield the
per-pod average 10.0 with that timestamp. -/
theorem customMetric_average_witness :
    GetCustomMetric qpsMetric (Except.ok [podA100, podB300, podSucceededS])
        (backendConst (QueryResult.vector [{ value := 30, timestampMs := 9 }])) nsOne
      = GoCall.ret (some 10) (GoTime.ofMillis 9) none :=
  (customMetric_average [podA100, podB300, podSucceededS]
      (backendConst (QueryResult.vector [{ value := 30, timestampMs := 9 }]))
      qpsMetric nsOne { value := 30, timestampMs := 9 } [] (by decide) rfl).trans
    (by with_unfolding_all decide)

/-- C4 counterexample: with an empty pod listing, `GetCPUUtilization`
does not yield an error-free empty result — it returns the nil value
together with a non-nil error (the wrapped missing-request error,
because the zero request sum trips the missing-request guard). -/
theorem emptyList_cpu_errors :
    GetCPUUtilization (Except.ok []) (backendConst (QueryResult.vector [])) nsOne
      = GoCall.ret none GoTime.zeroTime
          (some (MetricsError.cpuWrapped MetricsError.missingResourceRequest)) := by
  decide

/-- C4 amended: when the pod listing returns an empty list, neither
entry point reports the no-eligible-pods failure and neither yields an
error-free empty result: `GetCPUUtilization` fails with the wrapped
missing-request error for every backend (the empty sum trips the zero
check), and `GetCustomMetric` proceeds to query the backend with the
empty name list, failing with the no-matching-samples error whenever
the backend returns zero samples. -/
theorem emptyList_behavior (queryAPI : QueryAPI) (namespc customMetricName : String) :
    GetCPUUtilization (Except.ok []) queryAPI namespc
      = GoCall.ret none GoTime.zeroTime
          (some (MetricsError.cpuWrapped MetricsError.missingResourceRequest))
    ∧ (queryAPI (customQueryString customMetricName namespc (buildPodPattern []))
        = Except.ok (QueryResult.vector []) →
      GetCustomMetric customMetricName (Except.ok []) queryAPI namespc
        = GoCall.ret none GoTime.zeroTime
            (some (MetricsError.noMatchingSamples customMetricName (buildPodPattern [])))) := by
  constructor
  · have h1 : ¬ ((cpuAggregate ([] : List Pod)).podNames.length = 0 ∧ 0 < ([] : List Pod).length) := by
      simp [cpuAggregate]
    have h2 : (cpuAggregate ([] : List Pod)).missing = true
        ∨ (cpuAggregate ([] : List Pod)).requestSum = 0 := Or.inr rfl
    exact GetCPUUtilization_of_inner_err _ _ _ _ _ _
      (cpuCR_missing [] queryAPI namespc h1 h2)
  · intro hq
    have h1 : ¬ ((customPodNames ([] : List Pod)).length = 0 ∧ 0 < ([] : List Pod).length) := by
      simp [customPodNames]
    exact custom_inner_err [] customMetricName queryAPI namespc 0 GoTime.zeroTime _ h1
      (getCustomMetricForPods_emptyVector queryAPI customMetricName namespc _ hq)

/-- C4 witness: the amended behavior at the concrete empty listing and
an empty-vector backend. -/
theorem emptyList_behavior_witness :
    GetCPUUtilization (Except.ok []) (backendConst (QueryResult.vector [])) nsOne
      = GoCall.ret none GoTime.zeroTime
          (some (MetricsError.cpuWrapped MetricsError.missingResourceRequest))
    ∧ GetCustomMetric qpsMetric (Except.ok []) (backendConst (QueryResult.vector [])) nsOne
      = GoCall.ret none GoTime.zeroTime
          (some (MetricsError.noMatchingSamples qpsMetric (buildPodPattern []))) :=
  ⟨(emptyList_behavior (backendConst (QueryResult.vector [])) nsOne qpsMetric).1,
   (emptyList_behavior (backendConst (QueryResult.vector [])) nsOne qpsMetric).2 rfl⟩

/-- C5 counterexample: a list holding one Failed pod (with a CPU
request) satisfies the claim's condition — the summed request over the
counted Running pods is exactly zero — yet `GetCPUUtilization` fails
with the no-eligible-pods error, not the missing-request error,
because the no-running-pods guard runs first. -/
theorem noRunning_not_missingRequest :
    GetCPUUtilization (Except.ok [podFailedC]) (backendConst (QueryResult.vector [])) nsOne
      = GoCall.ret none GoTime.zeroTime
          (some (MetricsError.cpuWrapped MetricsError.noEligiblePods))
    ∧ ((runningPods [podFailedC]).map podRequestMilliSum).sum = 0 := by
  refine ⟨by decide, by decide⟩

/-- C5 amended: `GetCPUUtilization` fails with the missing-request
error iff the no-eligible-pods guard does not fire first (the list is
empty or some listed pod is Running) and, among the Running pods, some
container lacks an explicit CPU request or the summed requests are
exactly zero; in particular a single Running pod with a request-less
container forces this failure regardless of the other pods, and the
division by the average request is only ever reached with a non-zero
request sum. -/
theorem missingResourceRequest_iff (pods : List Pod) (queryAPI : QueryAPI) (namespc : String) :
    GetCPUUtilization (Except.ok pods) queryAPI namespc
      = GoCall.ret none GoTime.zeroTime
          (some (MetricsError.cpuWrapped MetricsError.missingResourceRequest))
    ↔ ((pods = [] ∨ ∃ p ∈ pods, p.phase = PodPhase.running)
       ∧ ((∃ p ∈ runningPods pods, ∃ c ∈ p.containers, c.cpuRequestMilli = none)
          ∨ ((runningPods pods).map podRequestMilliSum).sum = 0)) := by
  by_cases hg1 : (cpuAggregate pods).podNames.length = 0 ∧ 0 < pods.length
  · rw [GetCPUUtilization_of_inner_err _ _ _ _ _ _ (cpuCR_noEligible pods queryAPI namespc hg1)]
    constructor
    · intro h
      exfalso
      simp at h
    · rintro ⟨hA, _⟩
      exfalso
      have hnil : (cpuAggregate pods).podNames = [] := List.length_eq_zero.mp hg1.1
      have hrun : runningPods pods = [] := (cpuAggregate_podNames_eq_nil pods).mp hnil
      have hne : pods ≠ [] := by
        intro h0
        rw [h0] at hg1
        exact absurd hg1.2 (by simp)
      rcases hA with h0 | ⟨p, hp, hphase⟩
      · exact hne h0
      · exact (runningPods_eq_nil_iff pods).mp hrun p hp hphase
  · by_cases hg2 : (cpuAggregate pods).missing = true ∨ (cpuAggregate pods).requestSum = 0
    · rw [GetCPUUtilization_of_inner_err _ _ _ _ _ _ (cpuCR_missing pods queryAPI namespc hg1 hg2)]
      constructor
      · intro _
        constructor
        · by_cases hnil : pods = []
          · exact Or.inl hnil
          · right
            push_neg at hg1
            have hpos : 0 < pods.length := List.length_pos.mpr hnil
            have hlen : (cpuAggregate pods).podNames.length ≠ 0 := by
              intro h0
              exact absurd hpos (Nat.not_lt.mpr (hg1 h0))
            have hnnil : (cpuAggregate pods).podNames ≠ [] := by
              intro h0
              exact hlen (by rw [h0]; rfl)
            have hrun : runningPods pods ≠ [] := by
              intro h0
              exact hnnil ((cpuAggregate_podNames_eq_nil pods).mpr h0)
            by_contra hno
            push_neg at hno
            exact hrun ((runningPods_eq_nil_iff pods).mpr hno)
        · rcases hg2 with h | h
          · exact Or.inl ((cpuAggregate_missing_iff pods).mp h)
          · exact Or.inr (by rw [← cpuAggregate_requestSum]; exact h)
      · intro _
        rfl
    · constructor
      · intro h
        exfalso
        rcases hres : getCpuUtilizationForPods queryAPI namespc (cpuAggregate pods).podNames
          with _ | ⟨v, t, err⟩
        · rw [GetCPUUtilization_of_panics _ _ _
            (cpuCR_inner_panics pods queryAPI namespc hg1 hg2 hres)] at h
          simp at h
        · cases err with
          | none =>
            by_cases hr : Int.tdiv (cpuAggregate pods).requestSum (cpuAggregate pods).podNames.length = 0
            · have hok := cpuCR_inner_ok pods queryAPI namespc v t hg1 hg2 hres
              rw [hr] at hok
              rw [GetCPUUtilization_of_inner_ok_zero _ _ _ v t hok] at h
              simp at h
            · rw [GetCPUUtilization_of_inner_ok _ _ _ v _ t
                (cpuCR_inner_ok pods queryAPI namespc v t hg1 hg2 hres) hr] at h
              simp at h
          | some e =>
            have hshape := getCpuUtilizationForPods_err_shape queryAPI namespc _ v t e hres
            rw [GetCPUUtilization_of_inner_err _ _ _ _ _ _
              (cpuCR_inner_err pods queryAPI namespc v t e hg1 hg2 hres)] at h
            simp only [GoCall.ret.injEq, Option.some.injEq, MetricsError.cpuWrapped.injEq] at h
            have he := h.2.2
            rw [he] at hshape
            rcases hshape with hbad | hbad
            · simp at hbad
            · simp at hbad
      · rintro ⟨_, hB⟩
        exfalso
        push_neg at hg2
        rcases hB with h | h
        · exact absurd ((cpuAggregate_missing_iff pods).mpr h) hg2.1
        · exact hg2.2 (by rw [cpuAggregate_requestSum]; exact h)

/-- C1 counterexample: pods `a` (100m) and `b` (300m) Running and a
single backend sample of value `-0.003` satisfy all of the claim's
hypotheses (every container has a request, the sum 400 is non-zero,
the vector is non-empty), yet `GetCPUUtilization` returns 0 — Go's
`int64` division truncates toward zero — while the claim's
`floor(avgConsumptionMilli * 100 / avgRequestMilli)`
 = `floor((-0.003 * 1000 / 2) * 100 / 200)` is `-1`. -/
theorem cpuUtilization_floor_counterexample :
    GetCPUUtilization (Except.ok [podA100, podB300])
        (backendConst (QueryResult.vector [{ value := -3/1000, timestampMs := 7 }])) nsOne
      = GoCall.ret (some 0) (GoTime.ofMillis 7) none
    ∧ (⌊((-3 : ℚ)/1000 * 1000 / 2 * 100) / 200⌋ : Int) = -1 := by
  refine ⟨by with_unfolding_all decide, by norm_num⟩

/-- C1 amended: for every pod list with pairwise-distinct pod names in
which every Running pod's every container has an explicit CPU request,
the integer average request (request sum over Running pods divided by
the Running-pod count, Go-truncated) is non-zero, and the backend
returns a non-empty sample vector, `GetCPUUtilization` returns the
Go-truncating integer quotient `(avgConsumptionMilli * 100) tdiv
avgRequestMilli` — equal to the claimed floor whenever the consumption
is non-negative — where `avgConsumptionMilli` is the `int64`
truncation of the first sample's value times 1000 over the Running-pod
count. -/
theorem cpuUtilization_truncated_formula (pods : List Pod) (queryAPI : QueryAPI)
    (namespc : String) (s : Sample) (rest : List Sample)
    (hnd : (pods.map Pod.name).Nodup)
    (hreq : ∀ p ∈ runningPods pods, ∀ c ∈ p.containers, c.cpuRequestMilli ≠ none)
    (havg : Int.tdiv (((runningPods pods).map podRequestMilliSum).sum)
      ((runningPods pods).length : Int) ≠ 0)
    (hq : queryAPI (cpuQueryString namespc (buildPodPattern ((runningPods pods).map Pod.name)))
      = Except.ok (QueryResult.vector (s :: rest))) :
    GetCPUUtilization (Except.ok pods) queryAPI namespc
      = GoCall.ret (some (Int.tdiv
            (goTruncToInt (s.value * 1000 / ((runningPods pods).length : ℚ)) * 100)
            (Int.tdiv (((runningPods pods).map podRequestMilliSum).sum)
              ((runningPods pods).length : Int))))
          (GoTime.ofMillis s.timestampMs) none := by
  have hnames : (cpuAggregate pods).podNames = (runningPods pods).map Pod.name :=
    cpuAggregate_podNames_of_nodup pods hnd
  have hsum : (cpuAggregate pods).requestSum = ((runningPods pods).map podRequestMilliSum).sum :=
    cpuAggregate_requestSum pods
  have hlen : (cpuAggregate pods).podNames.length = (runningPods pods).length := by
    rw [hnames, List.length_map]
  have hS : ((runningPods pods).map podRequestMilliSum).sum ≠ 0 := by
    intro h0
    apply havg
    rw [h0]
    exact Int.zero_tdiv _
  have hn0 : (runningPods pods).length ≠ 0 := by
    intro h0
    apply havg
    rw [h0]
    simp
  have h1 : ¬ ((cpuAggregate pods).podNames.length = 0 ∧ 0 < pods.length) := by
    rintro ⟨h0, _⟩
    rw [hlen] at h0
    exact hn0 h0
  have h2 : ¬ ((cpuAggregate pods).missing = true ∨ (cpuAggregate pods).requestSum = 0) := by
    rintro (h | h)
    · rcases (cpuAggregate_missing_iff pods).mp h with ⟨p, hp, c, hc, hisnone⟩
      exact hreq p hp c hc hisnone
    · rw [hsum] at h
      exact hS h
  have hq2 : queryAPI (cpuQueryString namespc (buildPodPattern (cpuAggregate pods).podNames))
      = Except.ok (QueryResult.vector (s :: rest)) := by
    rw [hnames]
    exact hq
  have hvec := getCpuUtilizationForPods_vector queryAPI namespc _ s rest hq2
  have hok := cpuCR_inner_ok pods queryAPI namespc _ _ h1 h2 hvec
  have hr : Int.tdiv (cpuAggregate pods).requestSum ((cpuAggregate pods).podNames.length : Int)
      ≠ 0 := by
    rw [hsum]
    rw [show ((cpuAggregate pods).podNames.length : Int) = ((runningPods pods).length : Int) by
      rw [hlen]]
    exact havg
  have hmain := GetCPUUtilization_of_inner_ok _ _ _ _ _ _ hok hr
  rw [hmain, hsum, hlen]

/-- C1 witness: the spec scenario — pods `a` (100m) and `b` (300m)
Running, one backend sample of value 0.4 at timestamp 5 — yields
utilization 100 with that timestamp. -/
theorem cpuUtilization_truncated_formula_witness :
    GetCPUUtilization (Except.ok [podA100, podB300])
        (backendConst (QueryResult.vector [{ value := 2/5, timestampMs := 5 }])) nsOne
      = GoCall.ret (some 100) (GoTime.ofMillis 5) none :=
  (cpuUtilization_truncated_formula [podA100, podB300]
      (backendConst (QueryResult.vector [{ value := 2/5, timestampMs := 5 }])) nsOne
      { value := 2/5, timestampMs := 5 } [] (by decide) (by decide) (by decide) rfl).trans
    (by with_unfolding_all decide)

/-- C10: on every failure path of both entry points — listing failure,
no eligible pods, missing request, query failure, empty vector — the
returned triple carries the absent (nil) value and the zero timestamp
together with the non-nil error: any outcome with a non-nil error has
`none` as value and `time.Time{}` as observation time. -/
theorem failure_paths_zero_time (listOutcome : ListOutcome) (queryAPI : QueryAPI)
    (namespc customMetricName : String) (v : Option Int) (t : GoTime) (e : MetricsError)
    (v2 : Option ℚ) (t2 : GoTime) (e2 : MetricsError) :
    (GetCPUUtilization listOutcome queryAPI namespc = GoCall.ret v t (some e) →
      v = none ∧ t = GoTime.zeroTime)
    ∧ (GetCustomMetric customMetricName listOutcome queryAPI namespc = GoCall.ret v2 t2 (some e2) →
      v2 = none ∧ t2 = GoTime.zeroTime) := by
  constructor
  · intro h
    rcases hg : GetCpuConsumptionAndRequestInMillis listOutcome queryAPI namespc
      with _ | ⟨⟨c, r⟩, tt, err⟩
    · rw [GetCPUUtilization_of_panics _ _ _ hg] at h
      simp at h
    · cases err with
      | some e0 =>
        rw [GetCPUUtilization_of_inner_err _ _ _ _ _ _ hg] at h
        simp only [GoCall.ret.injEq] at h
        exact ⟨h.1.symm, h.2.1.symm⟩
      | none =>
        by_cases hr : r = 0
        · subst hr
          rw [GetCPUUtilization_of_inner_ok_zero _ _ _ c tt hg] at h
          simp at h
        · rw [GetCPUUtilization_of_inner_ok _ _ _ c r tt hg hr] at h
          simp at h
  · intro h
    rcases listOutcome with u | pods
    · rw [GetCustomMetric_listErr customMetricName u queryAPI namespc] at h
      simp only [GoCall.ret.injEq] at h
      exact ⟨h.1.symm, h.2.1.symm⟩
    · by_cases hguard : (customPodNames pods).length = 0 ∧ 0 < pods.length
      · rw [custom_noEligible pods customMetricName queryAPI namespc hguard] at h
        simp only [GoCall.ret.injEq] at h
        exact ⟨h.1.symm, h.2.1.symm⟩
      · rcases hres : getCustomMetricForPods queryAPI customMetricName namespc (customPodNames pods)
          with _ | ⟨w, tw, errw⟩
        · rw [custom_inner_panics pods customMetricName queryAPI namespc hguard hres] at h
          simp at h
        · cases errw with
          | some e0 =>
            rw [custom_inner_err pods customMetricName queryAPI namespc w tw e0 hguard hres] at h
            simp only [GoCall.ret.injEq] at h
            exact ⟨h.1.symm, h.2.1.symm⟩
          | none =>
            rw [custom_inner_ok pods customMetricName queryAPI namespc w tw hguard hres] at h
            simp at h

/-- C10 witness: at a failing pod listing both entry points return a
non-nil error, and the theorem instantiated there yields the absent
value and zero timestamp. -/
theorem failure_paths_zero_time_witness :
    GetCPUUtilization (Except.error ()) (backendConst QueryResult.scalar) nsOne
      = GoCall.ret none GoTime.zeroTime (some (MetricsError.cpuWrapped MetricsError.podListFailed))
    ∧ ((none : Option Int) = none ∧ GoTime.zeroTime = GoTime.zeroTime)
    ∧ ((none : Option ℚ) = none ∧ GoTime.zeroTime = GoTime.zeroTime) := by
  refine ⟨by decide, ?_, ?_⟩
  · exact (failure_paths_zero_time (Except.error ()) (backendConst QueryResult.scalar) nsOne
      qpsMetric none GoTime.zeroTime (MetricsError.cpuWrapped MetricsError.podListFailed)
      none GoTime.zeroTime MetricsError.podListFailed).1 (by decide)
  · exact (failure_paths_zero_time (Except.error ()) (backendConst QueryResult.scalar) nsOne
      qpsMetric none GoTime.zeroTime (MetricsError.cpuWrapped MetricsError.podListFailed)
      none GoTime.zeroTime MetricsError.podListFailed).2 (by decide)
